import Mathlib

/-!
Formal model of the provider routing core of the WalletConnect blockchain-api
repository, together with theorems settling the specification claims about it.

The definitions are shallow embeddings of the Rust sources:
* src/providers/mod.rs — `ProviderRepository`, `get_provider_for_chain_id`,
  `update_weights`, `ProviderKind`, `Weight`;
* src/providers/infura.rs, pokt.rs, publicnode.rs — the URL-building part of
  each `proxy` implementation and the rate-limit classifiers;
* src/utils/crypto.rs — the ENSIP-11 coin-type conversions.

Rust `HashMap`s are modelled as association lists, atomic weight cells as the
plain natural numbers they hold (one pure pass of the updater returns the new
table), and the OS random source as an explicit draw parameter: a weighted
draw receives an arbitrary natural `r` and uses `r % total` as the uniform
sample over `[0, total)`, and `update_weights` consumes an explicit stream of
`u32` draws.  Network sends are outside the embedding: each `proxy` is
modelled up to the upstream request it constructs.
-/

set_option autoImplicit false

namespace BlockchainApi

/-- The closed enumeration of upstream identities, from src/providers/mod.rs. -/
inductive ProviderKind where
  | Infura
  | Pokt
  | Binance
  | ZKSync
  | Publicnode
  | Omniatech
  deriving DecidableEq, Repr

/-- One chain entry of the weight table: the registered providers for the
chain in insertion order, each with the value its weight cell currently
holds (`Weight(AtomicU32)` in the source). -/
abbrev WeightEntries := List (ProviderKind × Nat)

/-- The weight table: chainID to entries, modelling
`HashMap<String, Vec<(ProviderKind, Weight)>>`. -/
abbrev WeightResolver := List (String × WeightEntries)

/-- `ProviderRepository` from src/providers/mod.rs.  The `providers` and
`ws_providers` maps are modelled by the set of kinds they contain (the
adapter values themselves are irrelevant to routing). -/
structure ProviderRepository where
  providers : List ProviderKind
  ws_providers : List ProviderKind
  weight_resolver : WeightResolver
  ws_weight_resolver : WeightResolver

/-- Outcome of `get_provider_for_chain_id`: the source returns
`Option<Arc<dyn RpcProvider>>`, but the `.unwrap()` on `WeightedIndex::new`
can also abort the call, which the embedding makes explicit. -/
inductive SelectOutcome where
  | noProvider
  | provider (kind : ProviderKind)
  | panicked
  deriving DecidableEq, Repr

/-- Sampling semantics of `rand::distributions::WeightedIndex`: given a
uniform draw `r` in `[0, total)`, return the first index whose cumulative
weight exceeds `r`. -/
def weightedSample : List Nat → Nat → Nat
  | [], _ => 0
  | w :: ws, r => if r < w then 0 else weightedSample ws (r - w) + 1

/-- `ProviderRepository::get_provider_for_chain_id` (src/providers/mod.rs,
lines 44–56): look the chain up in `weight_resolver` (absent → `None`),
return `None` on an empty entry list, build the vector of current weights,
`WeightedIndex::new(weights).unwrap()` — which panics when the weights sum
to zero — then sample an index with probability proportional to the weights
and look the drawn kind up in the `providers` map.  `r` stands for the
draw taken from `OsRng`. -/
def get_provider_for_chain_id (repo : ProviderRepository) (chain_id : String)
    (r : Nat) : SelectOutcome :=
  match repo.weight_resolver.lookup chain_id with
  | none => .noProvider
  | some providers =>
    if providers = [] then .noProvider
    else if (providers.map Prod.snd).sum = 0 then .panicked
    else
      let i := weightedSample (providers.map Prod.snd)
        (r % (providers.map Prod.snd).sum)
      let kind := (providers.getD i (ProviderKind.Infura, 0)).1
      if kind ∈ repo.providers then .provider kind else .noProvider

/-- `ProviderRepository::get_ws_provider_for_chain_id` (src/providers/mod.rs,
lines 58–70): identical to the HTTP variant over the WS tables. -/
def get_ws_provider_for_chain_id (repo : ProviderRepository) (chain_id : String)
    (r : Nat) : SelectOutcome :=
  match repo.ws_weight_resolver.lookup chain_id with
  | none => .noProvider
  | some providers =>
    if providers = [] then .noProvider
    else if (providers.map Prod.snd).sum = 0 then .panicked
    else
      let i := weightedSample (providers.map Prod.snd)
        (r % (providers.map Prod.snd).sum)
      let kind := (providers.getD i (ProviderKind.Infura, 0)).1
      if kind ∈ repo.ws_providers then .provider kind else .noProvider

/-- Stream of `u32` values drawn by `rand::random` inside `update_weights`,
consumed left to right. -/
abbrev RngStream := List Nat

/-- The inner loop of `update_weights`: store `rand::random::<u32>() % 25`
into every weight cell of one chain entry, consuming the stream in iteration
order; returns the rewritten entries and the rest of the stream. -/
def storeRandomWeights : WeightEntries → RngStream → WeightEntries × RngStream
  | [], rng => ([], rng)
  | (kind, _) :: rest, rng =>
    let updated := (storeRandomWeights rest rng.tail).1
    let rng' := (storeRandomWeights rest rng.tail).2
    ((kind, rng.headD 0 % 25) :: updated, rng')

/-- The outer loop of `update_weights` over every chain of the table. -/
def storeRandomWeightsAll : WeightResolver → RngStream → WeightResolver × RngStream
  | [], rng => ([], rng)
  | (chain, entries) :: rest, rng =>
    let entries' := (storeRandomWeights entries rng).1
    let rng' := (storeRandomWeights entries rng).2
    ((chain, entries') :: (storeRandomWeightsAll rest rng').1,
      (storeRandomWeightsAll rest rng').2)

/-- Outcome of one `update_weights` pass, carrying the weight table as the
pass leaves it: `.ok` when the prometheus query succeeded, `.panicked` when
its `.unwrap()` aborted the task. -/
inductive UpdateOutcome where
  | ok (weight_resolver : WeightResolver)
  | panicked (weight_resolver : WeightResolver)
  deriving DecidableEq, Repr

/-- The weight table an `update_weights` pass leaves behind. -/
def UpdateOutcome.table : UpdateOutcome → WeightResolver
  | .ok t => t
  | .panicked t => t

/-- Whether the pass aborted in the prometheus `.unwrap()`. -/
def UpdateOutcome.isPanicked : UpdateOutcome → Bool
  | .ok _ => false
  | .panicked _ => true

/-- `ProviderRepository::update_weights` (src/providers/mod.rs, lines
121–145): first overwrite every cell of `weight_resolver` with
`rand::random::<u32>() % 25`, then query the prometheus backend and
`.unwrap()` the result — a backend error (`prometheus = none`) panics at
that point, with the overwritten weights already stored.  The query result
itself is unused (the remainder of the body is commented out). -/
def update_weights (repo : ProviderRepository) (rng : RngStream)
    (prometheus : Option String) : UpdateOutcome :=
  match prometheus with
  | some _ => .ok (storeRandomWeightsAll repo.weight_resolver rng).1
  | none => .panicked (storeRandomWeightsAll repo.weight_resolver rng).1

theorem weightedSample_lt_length {ws : List Nat} {r : Nat} (h : r < ws.sum) :
    weightedSample ws r < ws.length := by
  induction ws generalizing r with
  | nil => simp at h
  | cons w ws ih =>
    by_cases hr : r < w
    · simp [weightedSample, hr]
    · have : r - w < ws.sum := by
        simp only [List.sum_cons] at h
        omega
      simp only [weightedSample, hr, if_false, List.length_cons]
      exact Nat.succ_lt_succ (ih this)

theorem weightedSample_pos {ws : List Nat} {r : Nat} (h : r < ws.sum) :
    0 < ws.getD (weightedSample ws r) 0 := by
  induction ws generalizing r with
  | nil => simp at h
  | cons w ws ih =>
    by_cases hr : r < w
    · simpa [weightedSample, hr] using Nat.lt_of_le_of_lt (Nat.zero_le r) hr
    · have : r - w < ws.sum := by
        simp only [List.sum_cons] at h
        omega
      simpa [weightedSample, hr] using ih this

theorem getD_mem {α : Type} {l : List α} {i : Nat} (d : α) (h : i < l.length) :
    l.getD i d ∈ l := by
  induction l generalizing i with
  | nil => simp at h
  | cons a l ih =>
    cases i with
    | zero => simp
    | succ i =>
      simp only [List.length_cons] at h
      exact List.mem_cons_of_mem a (ih (Nat.lt_of_succ_lt_succ h))

theorem getD_map_snd {α β : Type} [Inhabited β] {l : List (α × β)} {i : Nat}
    (d : α × β) (h : i < l.length) :
    (l.map Prod.snd).getD i default = (l.getD i d).2 := by
  induction l generalizing i with
  | nil => simp at h
  | cons a l ih =>
    cases i with
    | zero => simp
    | succ i =>
      simp only [List.length_cons] at h
      simpa using ih (Nat.lt_of_succ_lt_succ h)

/-- Error kinds of the adapter contract relevant here, from src/error.rs as
used by the adapters. -/
inductive RpcError where
  | ChainNotFound
  | Throttled
  deriving DecidableEq, Repr

/-- The upstream HTTP request an adapter constructs before sending it:
method, composed URL, the one forwarded header, and the verbatim body
bytes. -/
structure OutRequest where
  method : String
  uri : String
  contentType : String
  body : List Nat
  deriving DecidableEq, Repr

/-- `InfuraProvider` (src/providers/infura.rs): project id and the
chainID → upstream-label map. -/
structure InfuraProvider where
  project_id : String
  supported_chains : List (String × String)

/-- `InfuraWsProvider` (src/providers/infura.rs). -/
structure InfuraWsProvider where
  project_id : String
  supported_chains : List (String × String)

/-- `PoktProvider` (src/providers/pokt.rs). -/
structure PoktProvider where
  project_id : String
  supported_chains : List (String × String)

/-- `PublicnodeProvider` (src/providers/publicnode.rs). -/
structure PublicnodeProvider where
  supported_chains : List (String × String)

/-- Request-construction phase of `InfuraProvider::proxy`
(src/providers/infura.rs, lines 113–131): look the chain up
(absent → `RpcError::ChainNotFound`), compose
`https://{chain}.infura.io/v3/{project_id}`, and build a POST request with
`Content-Type: application/json` and the verbatim body. -/
def InfuraProvider.proxy (p : InfuraProvider) (chain_id : String)
    (body : List Nat) : Except RpcError OutRequest :=
  match p.supported_chains.lookup chain_id with
  | none => .error .ChainNotFound
  | some chain =>
    .ok ⟨"POST", "https://" ++ chain ++ ".infura.io/v3/" ++ p.project_id,
      "application/json", body⟩

/-- Request-construction phase of `PoktProvider::proxy`
(src/providers/pokt.rs, lines 66–89): compose
`https://{chain}.gateway.pokt.network/v1/lb/{project_id}` as a POST with
`Content-Type: application/json` and the verbatim body. -/
def PoktProvider.proxy (p : PoktProvider) (chain_id : String)
    (body : List Nat) : Except RpcError OutRequest :=
  match p.supported_chains.lookup chain_id with
  | none => .error .ChainNotFound
  | some chain =>
    .ok ⟨"POST",
      "https://" ++ chain ++ ".gateway.pokt.network/v1/lb/" ++ p.project_id,
      "application/json", body⟩

/-- Rust `str::to_lowercase`, modelled as per-character lowercasing (all
chain ids in play are ASCII).  Structurally recursive so that concrete
instances evaluate. -/
def toLowercase (s : String) : String :=
  String.mk (s.data.map Char.toLower)

/-- Request-construction phase of `PublicnodeProvider::proxy`
(src/providers/publicnode.rs, lines 50–79): look up the lowercased chain id,
compose `https://{chain}.publicnode.com`, forward the inbound method and
body with `Content-Type: application/json`. -/
def PublicnodeProvider.proxy (p : PublicnodeProvider) (method : String)
    (chain_id : String) (body : List Nat) : Except RpcError OutRequest :=
  match p.supported_chains.lookup (toLowercase chain_id) with
  | none => .error .ChainNotFound
  | some chain =>
    .ok ⟨method, "https://" ++ chain ++ ".publicnode.com",
      "application/json", body⟩

/-- URL-composition phase of `InfuraWsProvider::proxy`
(src/providers/infura.rs, lines 64–86): look up the lowercased chain id and
compose `wss://{chain}.infura.io/ws/v3/{project_id}` for the outbound
WebSocket connection. -/
def InfuraWsProvider.proxy (p : InfuraWsProvider) (chain_id : String) :
    Except RpcError String :=
  match p.supported_chains.lookup (toLowercase chain_id) with
  | none => .error .ChainNotFound
  | some chain =>
    .ok ("wss://" ++ chain ++ ".infura.io/ws/v3/" ++ p.project_id)

/-- A JSON-RPC error object as decoded from a response body
(`jsonrpc::Response::error`). -/
structure JsonRpcError where
  code : Int
  deriving DecidableEq, Repr

/-- An upstream HTTP response as seen by a rate-limit classifier: the status
code and the JSON-RPC error its body decodes to, when it decodes to one. -/
structure HttpResponse where
  status : Nat
  jsonRpcError : Option JsonRpcError
  deriving DecidableEq, Repr

/-- `impl RateLimited for PoktProvider::is_rate_limited`
(src/providers/pokt.rs, lines 35–64): the JSON-RPC `-32068` inspection is
commented out in the source and the function body is `false` for every
response (marked `TODO: Implement rate limiting as this is mocked`). -/
def PoktProvider.is_rate_limited (_response : HttpResponse) : Bool :=
  false

/-- `impl RateLimited for InfuraProvider` (src/providers/infura.rs):
HTTP 429. -/
def InfuraProvider.is_rate_limited (response : HttpResponse) : Bool :=
  response.status = 429

/-- `convert_evm_chain_id_to_coin_type` (src/utils/crypto.rs, lines 21–25):
`0x80000000 | chain_id` on `u32`.  Bitwise or of a 32-bit value cannot
overflow, so plain naturals model the `u32` arithmetic exactly. -/
def convert_evm_chain_id_to_coin_type (chain_id : Nat) : Nat :=
  0x80000000 ||| chain_id

/-- `convert_coin_type_to_evm_chain_id` (src/utils/crypto.rs, lines 27–31):
`0x7FFFFFFF & coin_type` on `u32`. -/
def convert_coin_type_to_evm_chain_id (coin_type : Nat) : Nat :=
  0x7FFFFFFF &&& coin_type

/-- Modelled from the spec: the `Priority` enumeration of
src/providers/weights.rs, which is not among the provided sources (only its
users in src/env/*.rs are).  Spec §3: `{Disabled=0, Low=1, Normal=2,
High=3, Max=4}`. -/
inductive Priority where
  | Disabled
  | Low
  | Normal
  | High
  | Max
  deriving DecidableEq, Repr

/-- Modelled from the spec: the initial weight value `Weight::new(priority)`
stores, per the spec §3 mapping. -/
def Priority.weight : Priority → Nat
  | .Disabled => 0
  | .Low => 1
  | .Normal => 2
  | .High => 3
  | .Max => 4

/-- A repository whose one chain is served by the single provider Pokt at
weight 1 — the situation of a dispatcher that has already tried Pokt. -/
def repoPoktOnly : ProviderRepository :=
  ⟨[.Pokt], [], [("eip155:1", [(.Pokt, 1)])], []⟩

/-- A repository whose one chain is present and non-empty but carries only
weight-0 cells. -/
def repoAllZero : ProviderRepository :=
  ⟨[.Pokt], [], [("eip155:10", [(.Pokt, 0)])], []⟩

/-- The empty repository. -/
def repoEmpty : ProviderRepository :=
  ⟨[], [], [], []⟩

/-- eip155:1 as registered by the chain catalogs: Pokt at
`Priority::Disabled` (src/env/pokt.rs, lines 62–66) next to Publicnode at
`Priority::High` (src/env/publicnode.rs). -/
def repoDisabledPokt : ProviderRepository :=
  ⟨[.Pokt, .Publicnode], [],
    [("eip155:1",
      [(.Pokt, Priority.weight .Disabled), (.Publicnode, Priority.weight .High)])],
    []⟩

/-- A repository with one chain and one provider at a positive weight. -/
def repoHealthy : ProviderRepository :=
  ⟨[.Pokt], [], [("eip155:1", [(.Pokt, 3)])], []⟩

/-- C1, counterexample: the claim says selection never returns a member of
the excluded set E, but `get_provider_for_chain_id` accepts no excluded
set: with E = {Pokt} recorded as tried, selection for a chain served only
by Pokt still returns Pokt, a member of E. -/
theorem select_returns_excluded_member :
    get_provider_for_chain_id repoPoktOnly "eip155:1" 0 = .provider .Pokt ∧
    ProviderKind.Pokt ∈ [ProviderKind.Pokt] := by
  decide

/-- C1, amended: the selection operation takes only the chain id — there is
no excluded-set parameter — so for every draw of the RNG it returns Pokt
for a chain served only by Pokt, even when Pokt is in the tried set; the
repository offers the dispatcher no way to exclude tried providers. -/
theorem select_has_no_exclusion
    (r : Nat) (tried : List ProviderKind) (_h : ProviderKind.Pokt ∈ tried) :
    get_provider_for_chain_id repoPoktOnly "eip155:1" r = .provider .Pokt := by
  simp [get_provider_for_chain_id, repoPoktOnly, weightedSample, Nat.mod_one]

/-- C1, witness for the amended theorem at a concrete draw and tried set. -/
theorem select_has_no_exclusion_witness :
    ProviderKind.Pokt ∈ [ProviderKind.Pokt] ∧
    get_provider_for_chain_id repoPoktOnly "eip155:1" 7 = .provider .Pokt :=
  ⟨by decide, select_has_no_exclusion 7 [ProviderKind.Pokt] (by decide)⟩

/-- C2: when the chain id is present with a non-empty provider list whose
current weights sum to zero, `get_provider_for_chain_id` does not return
"no provider": the `.unwrap()` on `WeightedIndex::new` panics. -/
theorem select_zero_weight_sum_panics
    (repo : ProviderRepository) (chain_id : String) (ps : WeightEntries)
    (r : Nat)
    (hps : repo.weight_resolver.lookup chain_id = some ps)
    (hne : ps ≠ [])
    (hsum : (ps.map Prod.snd).sum = 0) :
    get_provider_for_chain_id repo chain_id r = .panicked := by
  simp [get_provider_for_chain_id, hps, hne, hsum]

/-- C2, witness: the all-zero chain of `repoAllZero` panics selection. -/
theorem select_zero_weight_sum_panics_witness :
    repoAllZero.weight_resolver.lookup "eip155:10" =
      some [(ProviderKind.Pokt, 0)] ∧
    ([(ProviderKind.Pokt, 0)] : WeightEntries) ≠ [] ∧
    (([(ProviderKind.Pokt, 0)] : WeightEntries).map Prod.snd).sum = 0 ∧
    get_provider_for_chain_id repoAllZero "eip155:10" 0 = .panicked :=
  ⟨by decide, by decide, by decide,
    select_zero_weight_sum_panics repoAllZero "eip155:10"
      [(ProviderKind.Pokt, 0)] 0 (by decide) (by decide) (by decide)⟩

/-- C3: the Pokt rate-limit classifier is mocked out — it classifies as
not-rate-limited even an HTTP 200 response whose body decodes to the
JSON-RPC error code -32068, and indeed every response whatsoever. -/
theorem pokt_rate_limit_classifier_mocked :
    PoktProvider.is_rate_limited ⟨200, some ⟨-32068⟩⟩ = false ∧
    ∀ response : HttpResponse, PoktProvider.is_rate_limited response = false :=
  ⟨rfl, fun _ => rfl⟩

/-- C6: for a chain id absent from the weight table, or present with an
empty provider list, selection returns no provider (and hence there is no
adapter for the dispatcher to call upstream). -/
theorem select_absent_or_empty_no_provider
    (repo : ProviderRepository) (chain_id : String) (r : Nat)
    (h : repo.weight_resolver.lookup chain_id = none ∨
      repo.weight_resolver.lookup chain_id = some []) :
    get_provider_for_chain_id repo chain_id r = .noProvider := by
  rcases h with h | h <;> simp [get_provider_for_chain_id, h]

/-- C6, witness: the unknown chain eip155:99999 of the empty repository. -/
theorem select_absent_or_empty_no_provider_witness :
    (repoEmpty.weight_resolver.lookup "eip155:99999" = none ∨
      repoEmpty.weight_resolver.lookup "eip155:99999" = some []) ∧
    get_provider_for_chain_id repoEmpty "eip155:99999" 0 = .noProvider :=
  ⟨Or.inl (by decide),
    select_absent_or_empty_no_provider repoEmpty "eip155:99999" 0
      (Or.inl (by decide))⟩

/-- C7: for every chain found in an adapter chain map with label `label`,
the four adapters compose their upstream URLs exactly from their fixed
templates: `https://{label}.infura.io/v3/{key}`,
`https://{label}.gateway.pokt.network/v1/lb/{key}`,
`https://{label}.publicnode.com`, and `wss://{label}.infura.io/ws/v3/{key}`. -/
theorem proxy_url_templates
    (chains : List (String × String)) (key chain label method : String)
    (body : List Nat)
    (h : chains.lookup chain = some label)
    (hl : chains.lookup (toLowercase chain) = some label) :
    InfuraProvider.proxy ⟨key, chains⟩ chain body =
      .ok ⟨"POST", "https://" ++ label ++ ".infura.io/v3/" ++ key,
        "application/json", body⟩ ∧
    PoktProvider.proxy ⟨key, chains⟩ chain body =
      .ok ⟨"POST",
        "https://" ++ label ++ ".gateway.pokt.network/v1/lb/" ++ key,
        "application/json", body⟩ ∧
    PublicnodeProvider.proxy ⟨chains⟩ method chain body =
      .ok ⟨method, "https://" ++ label ++ ".publicnode.com",
        "application/json", body⟩ ∧
    InfuraWsProvider.proxy ⟨key, chains⟩ chain =
      .ok ("wss://" ++ label ++ ".infura.io/ws/v3/" ++ key) := by
  refine ⟨?_, ?_, ?_, ?_⟩ <;>
    simp [InfuraProvider.proxy, PoktProvider.proxy, PublicnodeProvider.proxy,
      InfuraWsProvider.proxy, h, hl]

/-- C7, witness: the Infura catalog entry eip155:1 ↦ mainnet. -/
theorem proxy_url_templates_witness :
    (([("eip155:1", "mainnet")] : List (String × String)).lookup "eip155:1" =
      some "mainnet") ∧
    (([("eip155:1", "mainnet")] : List (String × String)).lookup
      (toLowercase "eip155:1") = some "mainnet") ∧
    InfuraProvider.proxy ⟨"k", [("eip155:1", "mainnet")]⟩ "eip155:1" [123] =
      .ok ⟨"POST", "https://" ++ "mainnet" ++ ".infura.io/v3/" ++ "k",
        "application/json", [123]⟩ :=
  ⟨by decide, by decide,
    (proxy_url_templates [("eip155:1", "mainnet")] "k" "eip155:1" "mainnet"
      "POST" [123] (by decide) (by decide)).1⟩

/-- C5: a provider all of whose entries for a chain hold weight 0 is never
the one selection returns, as long as the weights of the chain sum to a positive
value: the weighted draw can only land on an index of positive weight. -/
theorem select_never_returns_zero_weight_provider
    (repo : ProviderRepository) (chain_id : String) (ps : WeightEntries)
    (k : ProviderKind) (r : Nat)
    (hps : repo.weight_resolver.lookup chain_id = some ps)
    (hk : ∀ w, (k, w) ∈ ps → w = 0)
    (hsum : 0 < (ps.map Prod.snd).sum) :
    get_provider_for_chain_id repo chain_id r ≠ .provider k := by
  have hne : ps ≠ [] := by rintro rfl; simp at hsum
  have hsum' : (ps.map Prod.snd).sum ≠ 0 := Nat.pos_iff_ne_zero.mp hsum
  have hmod : r % (ps.map Prod.snd).sum < (ps.map Prod.snd).sum :=
    Nat.mod_lt _ hsum
  have hlen :
      weightedSample (ps.map Prod.snd) (r % (ps.map Prod.snd).sum) <
        ps.length := by
    simpa using weightedSample_lt_length hmod
  have hpos :
      0 < (ps.map Prod.snd).getD
        (weightedSample (ps.map Prod.snd) (r % (ps.map Prod.snd).sum)) 0 :=
    weightedSample_pos hmod
  have hget :
      (ps.map Prod.snd).getD
        (weightedSample (ps.map Prod.snd) (r % (ps.map Prod.snd).sum)) 0 =
      (ps.getD
        (weightedSample (ps.map Prod.snd) (r % (ps.map Prod.snd).sum))
        (ProviderKind.Infura, 0)).2 :=
    getD_map_snd (ProviderKind.Infura, 0) hlen
  have hmem :
      ps.getD
        (weightedSample (ps.map Prod.snd) (r % (ps.map Prod.snd).sum))
        (ProviderKind.Infura, 0) ∈ ps :=
    getD_mem (ProviderKind.Infura, 0) hlen
  simp only [get_provider_for_chain_id, hps, hne, hsum', if_false]
  set e :=
    ps.getD (weightedSample (ps.map Prod.snd) (r % (ps.map Prod.snd).sum))
      (ProviderKind.Infura, 0) with he
  by_cases hin : e.1 ∈ repo.providers
  · rw [if_pos hin]
    intro hcontra
    have hke : e.1 = k := by injection hcontra
    have : (k, e.2) ∈ ps := by
      rw [← hke]
      simpa using hmem
    have : e.2 = 0 := hk e.2 this
    rw [hget, this] at hpos
    exact Nat.lt_irrefl 0 hpos
  · rw [if_neg hin]
    intro hcontra
    exact SelectOutcome.noConfusion hcontra

/-- C5, witness: eip155:1 with Pokt registered at `Disabled` (weight 0) and
Publicnode at `High`; selection never returns Pokt. -/
theorem select_never_returns_zero_weight_provider_witness :
    repoDisabledPokt.weight_resolver.lookup "eip155:1" =
      some [(ProviderKind.Pokt, Priority.weight .Disabled),
        (ProviderKind.Publicnode, Priority.weight .High)] ∧
    (0 : Nat) <
      (([(ProviderKind.Pokt, Priority.weight .Disabled),
        (ProviderKind.Publicnode, Priority.weight .High)] : WeightEntries).map
          Prod.snd).sum ∧
    get_provider_for_chain_id repoDisabledPokt "eip155:1" 0 ≠
      .provider .Pokt :=
  ⟨by decide, by decide,
    select_never_returns_zero_weight_provider repoDisabledPokt "eip155:1"
      [(ProviderKind.Pokt, Priority.weight .Disabled),
        (ProviderKind.Publicnode, Priority.weight .High)]
      ProviderKind.Pokt 0 (by decide)
      (by
        intro w hw
        simp only [List.mem_cons, List.not_mem_nil, or_false,
          Prod.mk.injEq] at hw
        rcases hw with ⟨_, hw⟩ | ⟨hw, _⟩
        · exact hw
        · exact absurd hw (by decide))
      (by decide)⟩

/-- The routing topology of a weight table: its chain keys in order and,
per chain, its provider kinds in order — everything except the mutable
weight values. -/
def tableShape (t : WeightResolver) : List (String × List ProviderKind) :=
  t.map fun e => (e.1, e.2.map Prod.fst)

theorem storeRandomWeights_shape (ps : WeightEntries) (rng : RngStream) :
    ((storeRandomWeights ps rng).1).map Prod.fst = ps.map Prod.fst := by
  induction ps generalizing rng with
  | nil => simp [storeRandomWeights]
  | cons e rest ih =>
    obtain ⟨kind, w⟩ := e
    simp [storeRandomWeights, ih]

theorem storeRandomWeightsAll_shape (t : WeightResolver) (rng : RngStream) :
    tableShape (storeRandomWeightsAll t rng).1 = tableShape t := by
  induction t generalizing rng with
  | nil => simp [storeRandomWeightsAll, tableShape]
  | cons e rest ih =>
    obtain ⟨chain, ps⟩ := e
    simp [storeRandomWeightsAll, tableShape, storeRandomWeights_shape]
    simpa [tableShape] using
      ih (storeRandomWeights ps rng).2

theorem storeRandomWeights_lt (ps : WeightEntries) (rng : RngStream)
    {k : ProviderKind} {w : Nat} (h : (k, w) ∈ (storeRandomWeights ps rng).1) :
    w < 25 := by
  induction ps generalizing rng with
  | nil => simp [storeRandomWeights] at h
  | cons e rest ih =>
    obtain ⟨kind, w₀⟩ := e
    simp only [storeRandomWeights, List.mem_cons, Prod.mk.injEq] at h
    rcases h with ⟨_, hw⟩ | h
    · omega
    · exact ih rng.tail h

theorem storeRandomWeightsAll_lt (t : WeightResolver) (rng : RngStream)
    {c : String} {ps : WeightEntries} {k : ProviderKind} {w : Nat}
    (hc : (c, ps) ∈ (storeRandomWeightsAll t rng).1) (hw : (k, w) ∈ ps) :
    w < 25 := by
  induction t generalizing rng with
  | nil => simp [storeRandomWeightsAll] at hc
  | cons e rest ih =>
    obtain ⟨chain, entries⟩ := e
    simp only [storeRandomWeightsAll, List.mem_cons, Prod.mk.injEq] at hc
    rcases hc with ⟨_, hps⟩ | hc
    · exact storeRandomWeights_lt entries rng (hps ▸ hw)
    · exact ih (storeRandomWeights entries rng).2 hc

/-- C8: a pass of `update_weights` (whether the prometheus query succeeds
or panics) leaves the structure of the weight table unchanged — the same
chain keys in the same order and, per chain, the same providers in the
same order; only the stored weight values change. -/
theorem update_weights_preserves_topology
    (repo : ProviderRepository) (rng : RngStream)
    (prometheus : Option String) :
    tableShape (update_weights repo rng prometheus).table =
      tableShape repo.weight_resolver := by
  cases prometheus <;>
    simp [update_weights, UpdateOutcome.table, storeRandomWeightsAll_shape]

/-- C8, footnote witness at a concrete pass. -/
theorem update_weights_preserves_topology_witness :
    tableShape (update_weights repoDisabledPokt [13, 2] none).table =
      tableShape repoDisabledPokt.weight_resolver :=
  update_weights_preserves_topology repoDisabledPokt [13, 2] none

/-- C9: `update_weights` first overwrites every weight cell with a fresh
draw reduced mod 25 (hence strictly below 25); only then does it query the
metrics backend, and a backend error panics the pass via `.unwrap()`,
leaving the already-overwritten table in place — the table after a failing
pass is exactly the table after a successful pass with the same draws, not
the prior table restored. -/
theorem update_weights_overwrites_then_panics
    (repo : ProviderRepository) (rng : RngStream) (d : String) :
    (update_weights repo rng none).isPanicked = true ∧
    (update_weights repo rng none).table =
      (update_weights repo rng (some d)).table ∧
    (update_weights repo rng none).table =
      (storeRandomWeightsAll repo.weight_resolver rng).1 ∧
    ∀ c ps k w, (c, ps) ∈ (update_weights repo rng none).table →
      (k, w) ∈ ps → w < 25 := by
  refine ⟨rfl, rfl, rfl, ?_⟩
  intro c ps k w hc hw
  exact storeRandomWeightsAll_lt repo.weight_resolver rng hc hw

/-- C9, witness: a concrete pass with draw 110 stores 110 % 25 = 10 into
the Pokt cell and panics, with the overwritten value in place. -/
theorem update_weights_overwrites_then_panics_witness :
    (update_weights repoHealthy [110] none).isPanicked = true ∧
    (update_weights repoHealthy [110] none).table =
      (update_weights repoHealthy [110] (some "data")).table ∧
    update_weights repoHealthy [110] none =
      .panicked [("eip155:1", [(.Pokt, 10)])] :=
  ⟨(update_weights_overwrites_then_panics repoHealthy [110] "data").1,
    (update_weights_overwrites_then_panics repoHealthy [110] "data").2.1,
    by decide⟩

/-- C4: the claim that after every `update_weights` pass each chain with a
healthy provider keeps a positive weight sum fails — the pass stores
`rand::random::<u32>() % 25` into every cell regardless of health, so a
draw that is a multiple of 25 zeroes a cell: with a single provider at
weight 3 and data flowing from the backend, one pass leaves the chain with
total weight 0. -/
theorem update_weights_can_zero_out_a_chain :
    update_weights repoHealthy [50] (some "data") =
      .ok [("eip155:1", [(.Pokt, 0)])] ∧
    (([(ProviderKind.Pokt, 0)] : WeightEntries).map Prod.snd).sum = 0 := by
  decide

/-- C10: converting an EVM chain id below 2^31 to an ENSIP-11 coin type and
back is the identity. -/
theorem coin_type_round_trip (chain_id : Nat) (h : chain_id < 2 ^ 31) :
    convert_coin_type_to_evm_chain_id
      (convert_evm_chain_id_to_coin_type chain_id) = chain_id := by
  apply Nat.eq_of_testBit_eq
  intro i
  rw [convert_coin_type_to_evm_chain_id, convert_evm_chain_id_to_coin_type,
    Nat.testBit_land, Nat.testBit_lor]
  have h7 : (0x7FFFFFFF : Nat) = 2 ^ 31 - 1 := by norm_num
  have h8 : (0x80000000 : Nat) = 2 ^ 31 := by norm_num
  rw [h7, h8, Nat.testBit_two_pow_sub_one]
  by_cases hi : i < 31
  · have hne : (31 : Nat) ≠ i := by omega
    simp [hi, Nat.testBit_two_pow_of_ne hne]
  · have hc : chain_id.testBit i = false :=
      Nat.testBit_eq_false_of_lt
        (lt_of_lt_of_le h (Nat.pow_le_pow_right (by norm_num) (by omega)))
    simp [hi, hc]

/-- C10, witness: the Polygon chain id 137 of the repository unit test. -/
theorem coin_type_round_trip_witness :
    137 < 2 ^ 31 ∧
    convert_coin_type_to_evm_chain_id
      (convert_evm_chain_id_to_coin_type 137) = 137 :=
  ⟨by norm_num, coin_type_round_trip 137 (by norm_num)⟩

end BlockchainApi
